import Mathlib

/-!
# Verification of the vid-essence-chat processing pipeline and chat assembler

Shallow embedding of the server core of the repository:
`server/src/services/aiService.js`, `server/src/services/youtubeService.js`,
`server/src/routes/videoRoutes.js`, the chat message routes, and
`server/src/models/Chat.js`.  JavaScript strings are modelled as `List Char`;
fallible operations return `Except` with the error message; the external
completion service and the content source are modelled as oracles (explicit
outcome values passed to the functions that consume them).
-/

namespace VidEssence

/-- JavaScript strings are modelled as lists of characters. -/
abbrev Text := List Char

/-- Convert a Lean string literal to the `Text` model. -/
def strT (s : String) : Text := s.toList

/-! ## Prompt excerpts (aiService.js)

Each prompt builder embeds `transcript.substring(0, budget)` for a fixed
character budget: 8000 for `generateSummary` (line 91), 6000 for
`extractKeyPoints` (line 132), 4000 for `generateChatResponse` (line 191) and
1500 for `generateTags` (line 247). -/

/-- `transcript.substring(0, budget)`: the excerpt of the transcript embedded
in a prompt. -/
def promptExcerpt (budget : Nat) (t : Text) : Text := t.take budget

/-- The excerpt embedded by `generateSummary` (`transcript.substring(0, 8000)`). -/
def summaryExcerpt (t : Text) : Text := promptExcerpt 8000 t

/-- The excerpt embedded by `extractKeyPoints` (`transcript.substring(0, 6000)`). -/
def keyPointsExcerpt (t : Text) : Text := promptExcerpt 6000 t

/-- The excerpt embedded by `generateChatResponse`
(`videoContext.transcript.substring(0, 4000)`). -/
def chatExcerpt (t : Text) : Text := promptExcerpt 4000 t

/-- The excerpt embedded by `generateTags` (`transcript.substring(0, 1500)`). -/
def tagsExcerpt (t : Text) : Text := promptExcerpt 1500 t

/-- The cut of `t` after `budget` characters falls on a word boundary:
either nothing is cut off, or one of the two characters adjacent to the cut
is whitespace (so no word is split in two). -/
def wordBoundaryCut (budget : Nat) (t : Text) : Prop :=
  t.length ≤ budget ∨ (t.getD (budget - 1) ' ').isWhitespace = true ∨
    (t.getD budget ' ').isWhitespace = true

instance (budget : Nat) (t : Text) : Decidable (wordBoundaryCut budget t) := by
  unfold wordBoundaryCut; infer_instance

theorem getD_replicate {α : Type} (a d : α) {n m : Nat} (h : m < n) :
    (List.replicate n a).getD m d = a := by
  induction n generalizing m with
  | zero => omega
  | succ k ih =>
    cases m with
    | zero => rfl
    | succ j =>
      have : (List.replicate (k + 1) a).getD (j + 1) d = (List.replicate k a).getD j d := rfl
      rw [this]
      exact ih (by omega)

/-- C1 counterexample: on a transcript of 8001 letters `a` (length exceeding
the 8000-character summary budget), the cut made by `summaryExcerpt` falls in
the middle of a word, refuting the word-boundary part of the claim. -/
theorem summary_excerpt_splits_word :
    8000 < (List.replicate 8001 'a').length ∧
    ¬ ((summaryExcerpt (List.replicate 8001 'a')).length ≤ 8000 ∧
       wordBoundaryCut 8000 (List.replicate 8001 'a')) := by
  constructor
  · rw [List.length_replicate]; omega
  · rintro ⟨-, hb | hb | hb⟩
    · rw [List.length_replicate] at hb; omega
    · rw [getD_replicate 'a' ' ' (by omega : (7999 : Nat) < 8001)] at hb
      exact absurd hb (by decide)
    · rw [getD_replicate 'a' ' ' (by omega : (8000 : Nat) < 8001)] at hb
      exact absurd hb (by decide)

/-- C1 (amended): every transcript excerpt embedded in a prompt stays within
its fixed character budget (8000 for summaries, 6000 for key points, 4000 for
chat context) and is a prefix of the transcript; the cut is made at a plain
character index, so it is NOT guaranteed to fall on a word boundary. -/
theorem prompt_excerpt_within_budget (t : Text) :
    (summaryExcerpt t).length ≤ 8000 ∧ summaryExcerpt t <+: t ∧
    (keyPointsExcerpt t).length ≤ 6000 ∧ keyPointsExcerpt t <+: t ∧
    (chatExcerpt t).length ≤ 4000 ∧ chatExcerpt t <+: t := by
  refine ⟨?_, ?_, ?_, ?_, ?_, ?_⟩ <;>
    simp [summaryExcerpt, keyPointsExcerpt, chatExcerpt, promptExcerpt,
      List.take_prefix, List.length_take]

/-! ## Key-point parsing (aiService.js, `extractKeyPoints` lines 147–151) -/

/-- JS `String.prototype.split` where the separator matches single characters
satisfying `p` (covers `split('\n')` and `split(/[,\n]/)`). -/
def splitOnPred (p : Char → Bool) : Text → List Text
  | [] => [[]]
  | c :: rest =>
    let r := splitOnPred p rest
    if p c then [] :: r
    else
      match r with
      | [] => [[c]]
      | h :: t => (c :: h) :: t

/-- JS `String.prototype.split(sep)` for a single-character separator. -/
def splitOnChar (sep : Char) : Text → List Text :=
  splitOnPred (fun c => c = sep)

/-- JS `String.prototype.trim` (strip leading and trailing whitespace). -/
def trimChars (l : Text) : Text :=
  ((l.dropWhile Char.isWhitespace).reverse.dropWhile Char.isWhitespace).reverse

/-- One of the bullet markers recognised by the key-point parser. -/
def isBulletMarker (c : Char) : Bool := c = '•' || c = '-' || c = '*'

/-- JS `point.replace(/^[•\-*]\s*/, '')`: remove one leading bullet marker and
the whitespace that follows it (a no-op when the line does not start with a
marker). -/
def stripLeadingMarker : Text → Text
  | [] => []
  | c :: rest => if isBulletMarker c then rest.dropWhile Char.isWhitespace else c :: rest

/-- The line filter of `extractKeyPoints`:
`line.trim() && (line.includes('•') || line.includes('-') || line.includes('*'))`. -/
def isKeyPointLine (line : Text) : Bool :=
  !(trimChars line).isEmpty && (line.contains '•' || line.contains '-' || line.contains '*')

/-- The parsing stage of `extractKeyPoints` (aiService.js lines 147–151):
split the completion response on newlines, keep non-blank lines containing a
bullet marker, strip the leading marker, trim, and keep only points longer
than 10 characters.  (There is no `.slice(0, 8)` in the source.) -/
def parseKeyPoints (keyPointsText : Text) : List Text :=
  (((splitOnChar '\n' keyPointsText).filter isKeyPointLine).map
      (fun point => trimChars (stripLeadingMarker point))).filter
    (fun point => decide (10 < point.length))

/-- A well-formed completion response consisting of nine bullet lines. -/
def nineBulletResponse : Text :=
  strT "- key point number one of the video\n- key point number two of the video\n- key point number three of the video\n- key point number four of the video\n- key point number five of the video\n- key point number six of the video\n- key point number seven of the video\n- key point number eight of the video\n- key point number nine of the video"

/-- C2 counterexample: a well-formed nine-bullet completion response yields
nine parsed key points, so the parser does not cap the result at 8 — the
source has no `.slice(0, 8)`; the 5–8 range is only requested in the prompt. -/
theorem parseKeyPoints_no_cap :
    (parseKeyPoints nineBulletResponse).length = 9 ∧
    ¬ ((parseKeyPoints nineBulletResponse).length ≤ 8) := by
  decide

/-- C2 (amended): `extractKeyPoints` parses the response line by line,
tolerating the bullet markers `•`, `-`, `*`: every returned point is obtained
from a response line containing one of the markers by stripping the leading
marker and trimming; the minimum-length noise filter keeps only points longer
than 10 characters; and the output never has more entries than the response
has lines (no padding).  The result is NOT capped at 8 entries. -/
theorem parseKeyPoints_spec (r : Text) :
    (∀ p ∈ parseKeyPoints r, 10 < p.length) ∧
    (∀ p ∈ parseKeyPoints r, ∃ line ∈ splitOnChar '\n' r,
      isKeyPointLine line = true ∧ p = trimChars (stripLeadingMarker line)) ∧
    (parseKeyPoints r).length ≤ (splitOnChar '\n' r).length := by
  refine ⟨?_, ?_, ?_⟩
  · intro p hp
    exact of_decide_eq_true (List.mem_filter.mp hp).2
  · intro p hp
    have hp' := (List.mem_filter.mp hp).1
    obtain ⟨line, hline, rfl⟩ := List.mem_map.mp hp'
    exact ⟨line, (List.mem_filter.mp hline).1, (List.mem_filter.mp hline).2, rfl⟩
  · calc (parseKeyPoints r).length
        ≤ (((splitOnChar '\n' r).filter isKeyPointLine).map
            (fun point => trimChars (stripLeadingMarker point))).length :=
          List.length_filter_le _ _
      _ = ((splitOnChar '\n' r).filter isKeyPointLine).length := List.length_map _ _
      _ ≤ (splitOnChar '\n' r).length := List.length_filter_le _ _

/-! ## Tag parsing, the completion-service oracle and the background pipeline
(aiService.js `generateTags` lines 262–272, videoRoutes.js
`processVideoInBackground` lines 120–186) -/

/-- ASCII uppercase test (`A`–`Z`). -/
def isUpperAscii (c : Char) : Bool := decide (65 ≤ c.toNat) && decide (c.toNat ≤ 90)

theorem toLower_toNat (c : Char) :
    (Char.toLower c).toNat = if 65 ≤ c.toNat ∧ c.toNat ≤ 90 then c.toNat + 32 else c.toNat := by
  unfold Char.toLower
  by_cases h : c.toNat ≥ 65 ∧ c.toNat ≤ 90
  · rw [if_pos h, if_pos h]
    have hv : (c.toNat + 32).isValidChar := Or.inl (by omega)
    rw [Char.ofNat, dif_pos hv]
    rfl
  · rw [if_neg h, if_neg h]

theorem toLower_not_upper (c : Char) : isUpperAscii (Char.toLower c) = false := by
  simp only [isUpperAscii, toLower_toNat]
  split
  · simp only [Bool.and_eq_false_iff, decide_eq_false_iff_not]
    right; omega
  · rename_i h
    simp only [Bool.and_eq_false_iff, decide_eq_false_iff_not]
    omega

/-- JS word character `\w`, i.e. `[A-Za-z0-9_]`. -/
def isWordCharJS (c : Char) : Bool :=
  (decide (97 ≤ c.toNat) && decide (c.toNat ≤ 122)) ||
  (decide (65 ≤ c.toNat) && decide (c.toNat ≤ 90)) ||
  (decide (48 ≤ c.toNat) && decide (c.toNat ≤ 57)) || c = '_'

/-- Characters kept by `tag.replace(/[^\w\s-]/g, '')`. -/
def keptTagChar (c : Char) : Bool := isWordCharJS c || c.isWhitespace || c = '-'

/-- The normalization applied to each raw tag:
`tag.trim().toLowerCase().replace(/[^\w\s-]/g, '')`. -/
def normalizeTag (tag : Text) : Text :=
  ((trimChars tag).map Char.toLower).filter keptTagChar

/-- The parsing stage of `generateTags` (aiService.js lines 262–266): split the
completion response on commas and newlines, normalize each piece, keep pieces
with `0 < length ≤ 50`, and truncate to the first 10. -/
def parseTags (tagsResponse : Text) : List Text :=
  (((splitOnPred (fun c => c = ',' || c = '\n') tagsResponse).map normalizeTag).filter
    (fun tag => decide (0 < tag.length) && decide (tag.length ≤ 50))).take 10

/-- Outcome of one completion-service call (`makeRequest`): the response text
or a thrown error message. -/
abbrev CallResult := Except Text Text

/-- `generateTags` (aiService.js lines 230–273): parse the completion response;
the surrounding `try`/`catch` swallows any failure and returns the empty
list. -/
def generateTags (call : CallResult) : List Text :=
  match call with
  | .ok response => parseTags response
  | .error _ => []

/-- `generateSummary` (aiService.js lines 69–110): return the completion
response, rewrapping a failure into a thrown error. -/
def generateSummary (call : CallResult) : CallResult :=
  match call with
  | .ok s => .ok s
  | .error e => .error (strT "Failed to generate video summary: " ++ e)

/-- `extractKeyPoints` (aiService.js lines 115–158): parse the completion
response into key points, rewrapping a failure into a thrown error. -/
def extractKeyPoints (call : CallResult) : Except Text (List Text) :=
  match call with
  | .ok s => .ok (parseKeyPoints s)
  | .error e => .error (strT "Failed to extract key points: " ++ e)

/-- Job status enum of the Video model (`processingStatus`). -/
inductive JobStatus
  | pending
  | processing
  | completed
  | failed
deriving DecidableEq

/-- The video data returned by `youtubeService.processVideo`. -/
structure ProcessedVideo where
  videoId : Text
  title : Text
  description : Text
  duration : Nat
  thumbnailUrl : Text
  channelName : Text
  transcript : Text
deriving DecidableEq

/-- Outcomes of the three completion-service calls made by one pipeline run. -/
structure AIOracle where
  summaryCall : CallResult
  keyPointsCall : CallResult
  tagsCall : CallResult

/-- The mutable part of the stored Video document that
`processVideoInBackground` updates. -/
structure JobRecord where
  status : JobStatus
  transcript : Text
  summary : Text
  keyPoints : List Text
  tags : List Text
  processingError : Option Text
deriving DecidableEq

/-- `processVideoInBackground` (videoRoutes.js lines 120–186): fetch the video
data, generate summary, key points and tags, then mark the job `completed`; any
thrown error marks the job `failed` with the error message. -/
def processVideoInBackground (videoData : Except Text ProcessedVideo) (o : AIOracle)
    (job : JobRecord) : JobRecord :=
  match videoData with
  | .error e => { job with status := .failed, processingError := some e }
  | .ok vd =>
    match generateSummary o.summaryCall with
    | .error e => { job with status := .failed, processingError := some e }
    | .ok summary =>
      match extractKeyPoints o.keyPointsCall with
      | .error e => { job with status := .failed, processingError := some e }
      | .ok keyPoints =>
        { job with
          status := .completed
          transcript := vd.transcript
          summary := summary
          keyPoints := keyPoints
          tags := generateTags o.tagsCall }

/-- C3: a completion failure inside `generateTags` is swallowed and degrades to
the empty tag list, so a pipeline run in which only the tag call fails still
completes with `tags = []`; and on a successful tag call the result has at most
10 tags, each non-empty, of length at most 50, and free of uppercase ASCII
letters. -/
theorem generateTags_degrades (o : AIOracle) (job : JobRecord) (vd : ProcessedVideo)
    (s k e : Text) (hs : o.summaryCall = .ok s) (hk : o.keyPointsCall = .ok k)
    (ht : o.tagsCall = .error e) :
    generateTags o.tagsCall = [] ∧
    (processVideoInBackground (.ok vd) o job).status = .completed ∧
    (processVideoInBackground (.ok vd) o job).tags = [] ∧
    (∀ r : Text, (generateTags (.ok r)).length ≤ 10 ∧
      ∀ t ∈ generateTags (.ok r),
        t ≠ [] ∧ t.length ≤ 50 ∧ ∀ c ∈ t, isUpperAscii c = false) := by
  have htags : generateTags o.tagsCall = [] := by rw [ht]; rfl
  refine ⟨htags, ?_, ?_, ?_⟩
  · simp [processVideoInBackground, hs, hk, generateSummary, extractKeyPoints]
  · simp [processVideoInBackground, hs, hk, generateSummary, extractKeyPoints, htags]
  · intro r
    constructor
    · exact List.length_take_le _ _
    · intro t hmem
      have hmem' := List.mem_of_mem_take hmem
      have hf := List.mem_filter.mp hmem'
      have hlen := hf.2
      simp only [Bool.and_eq_true, decide_eq_true_eq] at hlen
      refine ⟨?_, hlen.2, ?_⟩
      · intro hnil
        rw [hnil] at hlen
        simp at hlen
      · intro c hc
        obtain ⟨raw, _, rfl⟩ := List.mem_map.mp hf.1
        have hc' := List.mem_of_mem_filter hc
        obtain ⟨c0, _, rfl⟩ := List.mem_map.mp hc'
        exact toLower_not_upper c0

/-- Witness: `generateTags_degrades` applied to a concrete run whose tag call
fails while the summary and key-point calls succeed. -/
theorem generateTags_degrades_witness :
    generateTags (AIOracle.mk (.ok (strT "a summary")) (.ok (strT "- a key point"))
        (.error (strT "rate limited"))).tagsCall = [] ∧
    (processVideoInBackground (.ok ⟨strT "id1", strT "t", strT "d", 0, strT "u", strT "c", strT "x"⟩)
        (AIOracle.mk (.ok (strT "a summary")) (.ok (strT "- a key point"))
          (.error (strT "rate limited")))
        ⟨.processing, [], [], [], [], none⟩).status = .completed ∧
    (processVideoInBackground (.ok ⟨strT "id1", strT "t", strT "d", 0, strT "u", strT "c", strT "x"⟩)
        (AIOracle.mk (.ok (strT "a summary")) (.ok (strT "- a key point"))
          (.error (strT "rate limited")))
        ⟨.processing, [], [], [], [], none⟩).tags = [] ∧
    (∀ r : Text, (generateTags (.ok r)).length ≤ 10 ∧
      ∀ t ∈ generateTags (.ok r),
        t ≠ [] ∧ t.length ≤ 50 ∧ ∀ c ∈ t, isUpperAscii c = false) :=
  generateTags_degrades _ _ _ _ _ _ rfl rfl rfl

/-! ## Transcript fetching, tiers and the fallback transcript
(youtubeService.js `getTranscript` lines 126–153, `getAlternativeTranscript`
lines 203–231, `processVideo` lines 236–264) -/

/-- One entry of the array returned by `YoutubeTranscript.fetchTranscript`. -/
structure TranscriptItem where
  text : Text
deriving DecidableEq

/-- JS `Array.prototype.join` with a single-character separator. -/
def joinWithChar (sep : Char) : List Text → Text
  | [] => []
  | [t] => t
  | t :: rest => t ++ sep :: joinWithChar sep rest

/-- JS `Array.prototype.join(' ')`. -/
def joinSpace : List Text → Text := joinWithChar ' '

/-- JS `.replace(/\s+/g, ' ')`: collapse each whitespace run to one space. -/
def collapseWs : Text → Text
  | [] => []
  | c :: rest =>
    if c.isWhitespace then ' ' :: collapseWs (rest.dropWhile Char.isWhitespace)
    else c :: collapseWs rest
termination_by t => t.length
decreasing_by
  · simpa using Nat.lt_succ_of_le (List.Sublist.length_le (List.dropWhile_sublist _))
  · simp

/-- `arr.map(i => i.text).join(' ').replace(/\s+/g, ' ').trim()`
(youtubeService.js lines 135–139 and 216–220). -/
def joinTranscript (items : List TranscriptItem) : Text :=
  trimChars (collapseWs (joinSpace (items.map TranscriptItem.text)))

/-- Outcomes of the transcript fetches attempted for one video: the primary
fetch plus one fetch per language variant tried by `getAlternativeTranscript`
(`en`, `en-US`, `en-GB`). -/
structure TranscriptOracle where
  primary : Except Text (List TranscriptItem)
  langEn : Except Text (List TranscriptItem)
  langEnUS : Except Text (List TranscriptItem)
  langEnGB : Except Text (List TranscriptItem)

/-- One fetch attempt yields a usable transcript only when it does not throw
and returns a non-empty array (`if (transcriptArray && transcriptArray.length > 0)`). -/
def fetchLangAttempt (r : Except Text (List TranscriptItem)) : Option Text :=
  match r with
  | .ok arr => if arr.length > 0 then some (joinTranscript arr) else none
  | .error _ => none

/-- `getAlternativeTranscript`: try the language variants in order, returning
the first usable transcript; throw when all variants fail. -/
def getAlternativeTranscript (o : TranscriptOracle) : Except Text Text :=
  match fetchLangAttempt o.langEn with
  | some t => .ok t
  | none =>
    match fetchLangAttempt o.langEnUS with
    | some t => .ok t
    | none =>
      match fetchLangAttempt o.langEnGB with
      | some t => .ok t
      | none => .error (strT "Alternative transcript extraction failed: No transcript available in supported languages")

/-- `getTranscript`: primary fetch (an empty array counts as
`No transcript available for this video`), falling back to
`getAlternativeTranscript`, rewrapping the primary error when both fail. -/
def getTranscript (o : TranscriptOracle) : Except Text Text :=
  match o.primary with
  | .ok arr =>
    if arr.length > 0 then .ok (joinTranscript arr)
    else
      match getAlternativeTranscript o with
      | .ok t => .ok t
      | .error _ => .error (strT "Failed to get video transcript: No transcript available for this video")
  | .error e =>
    match getAlternativeTranscript o with
    | .ok t => .ok t
    | .error _ => .error (strT "Failed to get video transcript: " ++ e)

/-- The metadata record assembled by `getVideoInfo` (youtubeService.js lines
105–116); `publishedAt` is omitted from the model. -/
structure VideoInfo where
  videoId : Text
  title : Text
  description : Text
  duration : Nat
  thumbnailUrl : Text
  channelName : Text
  viewCount : Nat
  likeCount : Nat
  url : Text
deriving DecidableEq

/-- The degradation tag appended to every synthesized fallback transcript. -/
def degradedNote : Text :=
  strT "\n\nNote: This video does not have captions/transcript available."

/-- The fallback transcript synthesized by `processVideo` when the transcript
fetch throws (youtubeService.js line 252): title, channel and description
concatenated, ending with the degradation note. -/
def fallbackTranscript (info : VideoInfo) : Text :=
  strT "Video Title: " ++ info.title ++ strT "\n\nChannel: " ++ info.channelName ++
    strT "\n\nDescription: " ++
    (if info.description.isEmpty then strT "No description available." else info.description) ++
    degradedNote

/-- `processVideo` (youtubeService.js lines 236–264): get the video info, then
the transcript; a transcript failure is absorbed by synthesizing the fallback
transcript, while a metadata failure propagates. -/
def processVideo (metadata : Except Text VideoInfo) (o : TranscriptOracle) :
    Except Text ProcessedVideo :=
  match metadata with
  | .error e => .error (strT "Video processing failed: " ++ e)
  | .ok info =>
    let transcript :=
      match getTranscript o with
      | .ok t => t
      | .error _ => fallbackTranscript info
    .ok ⟨info.videoId, info.title, info.description, info.duration,
      info.thumbnailUrl, info.channelName, transcript⟩

/-- C4: when metadata extraction succeeds but every transcript tier fails
(primary and all language variants), `processVideo` still succeeds and returns
the synthesized fallback transcript — title, channel and description tagged
with the degradation note — and a background run over this result whose
summary and key-point calls succeed still reaches `completed`. -/
theorem processVideo_fallback (info : VideoInfo) (o : TranscriptOracle)
    (hp : fetchLangAttempt o.primary = none)
    (h1 : fetchLangAttempt o.langEn = none)
    (h2 : fetchLangAttempt o.langEnUS = none)
    (h3 : fetchLangAttempt o.langEnGB = none)
    (oAI : AIOracle) (s k : Text) (job : JobRecord)
    (hs : oAI.summaryCall = .ok s) (hk : oAI.keyPointsCall = .ok k) :
    processVideo (.ok info) o =
      .ok ⟨info.videoId, info.title, info.description, info.duration,
        info.thumbnailUrl, info.channelName, fallbackTranscript info⟩ ∧
    degradedNote <:+ fallbackTranscript info ∧
    (processVideoInBackground (processVideo (.ok info) o) oAI job).status = .completed ∧
    (processVideoInBackground (processVideo (.ok info) o) oAI job).transcript
      = fallbackTranscript info := by
  have halt : getAlternativeTranscript o =
      .error (strT "Alternative transcript extraction failed: No transcript available in supported languages") := by
    rw [getAlternativeTranscript, h1, h2, h3]
  have htr : ∃ m, getTranscript o = .error m := by
    cases hpr : o.primary with
    | ok arr =>
      rw [hpr, fetchLangAttempt] at hp
      have hlen : ¬ arr.length > 0 := by
        intro hl; rw [if_pos hl] at hp; exact absurd hp (by simp)
      rw [getTranscript, hpr]
      simp only [if_neg hlen, halt]
      exact ⟨_, rfl⟩
    | error e =>
      rw [getTranscript, hpr]
      simp only [halt]
      exact ⟨_, rfl⟩
  obtain ⟨m, hm⟩ := htr
  have hpv : processVideo (.ok info) o =
      .ok ⟨info.videoId, info.title, info.description, info.duration,
        info.thumbnailUrl, info.channelName, fallbackTranscript info⟩ := by
    rw [processVideo, hm]
  refine ⟨hpv, List.suffix_append _ _, ?_, ?_⟩ <;>
    rw [hpv] <;>
    simp [processVideoInBackground, hs, hk, generateSummary, extractKeyPoints]

/-- A concrete video metadata record used to exercise the fallback path. -/
def c4Info : VideoInfo :=
  ⟨strT "vid01", strT "A Title", strT "a description", 60, strT "thumb",
    strT "Chan", 0, 0, strT "url"⟩

/-- A concrete transcript oracle in which every fetch throws. -/
def c4TrOracle : TranscriptOracle :=
  ⟨.error (strT "no captions"), .error (strT "no captions"),
    .error (strT "no captions"), .error (strT "no captions")⟩

/-- A concrete completion oracle whose summary and key-point calls succeed. -/
def c4AIOracle : AIOracle :=
  ⟨.ok (strT "a summary"), .ok (strT "- a long enough key point"), .ok (strT "tag1, tag2")⟩

/-- Witness: `processVideo_fallback` at a concrete video whose transcript
fetches all fail while metadata extraction succeeded. -/
theorem processVideo_fallback_witness :
    processVideo (.ok c4Info) c4TrOracle =
      .ok ⟨c4Info.videoId, c4Info.title, c4Info.description, c4Info.duration,
        c4Info.thumbnailUrl, c4Info.channelName, fallbackTranscript c4Info⟩ ∧
    degradedNote <:+ fallbackTranscript c4Info ∧
    (processVideoInBackground (processVideo (.ok c4Info) c4TrOracle) c4AIOracle
        ⟨.processing, [], [], [], [], none⟩).status = .completed ∧
    (processVideoInBackground (processVideo (.ok c4Info) c4TrOracle) c4AIOracle
        ⟨.processing, [], [], [], [], none⟩).transcript = fallbackTranscript c4Info :=
  processVideo_fallback c4Info c4TrOracle rfl rfl rfl rfl c4AIOracle _ _
    ⟨.processing, [], [], [], [], none⟩ rfl rfl

/-! ## Job submission and the completed-job cache hit
(videoRoutes.js POST /analyze lines 46–117) -/

/-- What the analyze route replies with: the stored record for an
already-processed video, or an acknowledgement that processing started. -/
inductive AnalyzeResponse
  | alreadyProcessed (record : JobRecord)
  | processingStarted
deriving DecidableEq

/-- Result of one analyze call, given the looked-up existing job for the
resolved contentId: the HTTP response, the stored job record after the call,
whether background processing was invoked, and whether the history side effect
ran. -/
structure AnalyzeOutcome where
  response : AnalyzeResponse
  storedJob : JobRecord
  backgroundInvoked : Bool
  historyTouched : Bool
deriving DecidableEq

/-- POST /analyze (videoRoutes.js lines 61–98): a `completed` job
short-circuits — history side effect only, record returned unchanged, no
background processing; otherwise the record is created (or reset to
`processing`) and background processing starts. -/
def submitAnalyze (existing : Option JobRecord) : AnalyzeOutcome :=
  match existing with
  | some job =>
    if job.status = .completed then
      ⟨.alreadyProcessed job, job, false, true⟩
    else
      ⟨.processingStarted, { job with status := .processing }, true, false⟩
  | none =>
    ⟨.processingStarted, ⟨.processing, [], [], [], [], none⟩, true, false⟩

/-- C5: submitting a URL whose contentId maps to a stored `completed` job
returns that stored record immediately, leaves it unchanged, does not invoke
background extraction or summarization, and only performs the history side
effect. -/
theorem submitAnalyze_cache_hit (job : JobRecord) (h : job.status = .completed) :
    submitAnalyze (some job) =
      ⟨.alreadyProcessed job, job, false, true⟩ := by
  simp [submitAnalyze, h]

/-- Witness: `submitAnalyze_cache_hit` at a concrete completed job. -/
theorem submitAnalyze_cache_hit_witness :
    submitAnalyze (some ⟨.completed, strT "x", strT "s", [], [], none⟩) =
      ⟨.alreadyProcessed ⟨.completed, strT "x", strT "s", [], [], none⟩,
        ⟨.completed, strT "x", strT "s", [], [], none⟩, false, true⟩ :=
  submitAnalyze_cache_hit _ rfl

/-! ## Chat sessions (models/Chat.js) and the message route
(chat routes POST /message, aiService.js `generateChatResponse`) -/

/-- Message roles of the chat message schema (`enum: ['user', 'assistant']`). -/
inductive MsgRole
  | user
  | assistant
deriving DecidableEq

/-- One stored chat message (Chat.js `messageSchema`); `timestamp` defaults to
the append time. -/
structure ChatMessage where
  content : Text
  role : MsgRole
  timestamp : Nat
deriving DecidableEq

/-- The chat document state relevant to the message route (Chat.js
`chatSchema`). -/
structure ChatDoc where
  messages : List ChatMessage
  totalMessages : Nat
  lastMessageAt : Nat
  isActive : Bool
deriving DecidableEq

/-- The `pre('save')` hook of the chat schema (Chat.js lines 80–88): when the
messages were modified, recompute `totalMessages` and set `lastMessageAt` to
the last message's timestamp. -/
def preSave (messagesModified : Bool) (c : ChatDoc) : ChatDoc :=
  if messagesModified then
    { c with
      totalMessages := c.messages.length
      lastMessageAt :=
        match c.messages.getLast? with
        | some m => m.timestamp
        | none => c.lastMessageAt }
  else c

/-- `chat.addMessage(content, role)` (Chat.js lines 62–67): push the message
(timestamped `now`), set `totalMessages` and `lastMessageAt`, then save — which
runs the `pre('save')` hook with the messages modified. -/
def addMessage (c : ChatDoc) (content : Text) (role : MsgRole) (now : Nat) : ChatDoc :=
  preSave true
    { c with
      messages := c.messages ++ [⟨content, role, now⟩]
      totalMessages := (c.messages ++ [(⟨content, role, now⟩ : ChatMessage)]).length
      lastMessageAt := now }

/-- Roles of the prompt messages sent to the completion service. -/
inductive Role
  | system
  | user
  | assistant
deriving DecidableEq

/-- One prompt message of a completion request. -/
structure PromptMessage where
  role : Role
  content : Text
deriving DecidableEq

/-- The video context the route passes to `generateChatResponse`
(chat routes lines 144–150). -/
structure VideoContext where
  title : Text
  channelName : Text
  summary : Text
  keyPoints : List Text
  transcript : Text

/-- The fixed system prompt of `generateChatResponse` (aiService.js lines
165–180). -/
def chatSystemPrompt : Text :=
  strT "You are an intelligent assistant specialized in discussing YouTube video content. You have access to the full context of a specific video and can answer questions about it accurately.\n\nYour capabilities:\n1. Answer questions about the video content with specific details\n2. Provide explanations and elaborations on topics mentioned in the video\n3. Connect different concepts discussed in the video\n4. Offer additional insights related to the video's subject matter\n5. Reference specific parts or examples from the video when relevant\n\nGuidelines:\n1. Base your answers primarily on the video content provided\n2. Be conversational and helpful\n3. If asked about something not covered in the video, acknowledge this clearly\n4. Keep responses focused and relevant to the question\n5. Use examples from the video when possible\n6. Maintain context from previous messages in the conversation"

/-- The `contextMessage` block (aiService.js lines 183–191): title, channel,
summary, bulleted key points (or a placeholder when the join is empty), and the
4000-character transcript excerpt with an ellipsis when truncated. -/
def contextMessage (v : VideoContext) : Text :=
  strT "Video Context:\nTitle: " ++ v.title ++ strT "\nChannel: " ++ v.channelName ++
    strT "\nSummary: " ++ v.summary ++ strT "\n\nKey Points:\n" ++
    (let kp := joinWithChar '\n' (v.keyPoints.map (fun point => strT "• " ++ point))
     if kp.isEmpty then strT "No key points available" else kp) ++
    strT "\n\nTranscript: " ++ chatExcerpt v.transcript ++
    (if 4000 < v.transcript.length then strT "..." else [])

/-- The fixed system/context block of every chat prompt (aiService.js lines
194–199): system prompt, priming assistant turn, context turn, second priming
assistant turn. -/
def chatFixedBlock (v : VideoContext) : List PromptMessage :=
  [⟨.system, chatSystemPrompt⟩,
    ⟨.assistant, strT "I have the context of the video \"" ++ v.title ++
      strT "\" and I'm ready to answer your questions about it."⟩,
    ⟨.user, strT "Context: " ++ contextMessage v⟩,
    ⟨.assistant, strT "I understand the video content and context. What would you like to know about it?"⟩]

/-- The prompt assembled by `generateChatResponse` (aiService.js lines
194–213): the fixed block, then the supplied chat history (roles coerced to
user/assistant), then the current question as the final user turn. -/
def buildChatMessages (question : Text) (v : VideoContext)
    (chatHistory : List PromptMessage) : List PromptMessage :=
  chatFixedBlock v ++
    chatHistory.map (fun msg => ⟨if msg.role = .user then .user else .assistant, msg.content⟩) ++
    [⟨.user, question⟩]

/-- JS `arr.slice(-n)`: the last `n` elements. -/
def sliceLast (n : Nat) (l : List α) : List α := l.drop (l.length - n)

/-- The mapping `msg => ({role: msg.role === 'user' ? 'user' : 'assistant',
content: msg.content})` (chat routes lines 153–156). -/
def toPromptMessage (m : ChatMessage) : PromptMessage :=
  ⟨if m.role = .user then .user else .assistant, m.content⟩

/-- The prior-turn window the route passes to `generateChatResponse`:
`chat.messages.slice(-10).map(...)` computed after the user question was
appended, then `.slice(0, -1)` to exclude the question itself (chat routes
lines 152–164). -/
def routeWindow (messagesAfterAppend : List ChatMessage) : List PromptMessage :=
  ((sliceLast 10 messagesAfterAppend).map toPromptMessage).dropLast

/-- `generateChatResponse` (aiService.js lines 163–225): one completion call on
the assembled prompt, failures rewrapped into a thrown error. -/
def generateChatResponse (call : CallResult) : CallResult :=
  match call with
  | .ok r => .ok r
  | .error e => .error (strT "Failed to generate response: " ++ e)

/-- Result of POST /message: the chat document afterwards and the reply or
error returned to the client. -/
structure MessageOutcome where
  chat : ChatDoc
  reply : Except Text Text

/-- POST /message (chat routes lines 140–186): append the user question first,
build the windowed prompt, invoke the completion service once; on success
append the assistant reply, on failure return the error with no assistant
append. -/
def postChatMessage (c : ChatDoc) (question : Text) (call : CallResult)
    (now later : Nat) : MessageOutcome :=
  let c1 := addMessage c question .user now
  match generateChatResponse call with
  | .ok reply => ⟨addMessage c1 reply .assistant later, .ok reply⟩
  | .error e => ⟨c1, .error e⟩

theorem addMessage_messages (c : ChatDoc) (content : Text) (role : MsgRole) (now : Nat) :
    (addMessage c content role now).messages = c.messages ++ [⟨content, role, now⟩] := by
  simp [addMessage, preSave]

theorem routeWindow_append (l : List ChatMessage) (q : ChatMessage) :
    routeWindow (l ++ [q]) = (sliceLast 9 l).map toPromptMessage := by
  have hlen : (l ++ [q]).length - 10 = l.length - 9 := by simp
  have hk : l.length - 9 ≤ l.length := Nat.sub_le _ _
  unfold routeWindow sliceLast
  rw [hlen, List.drop_append_of_le_length hk, List.map_append]
  simp

/-- C6: no matter how long the session history is, the prompt assembled for a
new question replays at most 9 prior turns (the last-10 window computed after
the question was appended, minus the question itself) — in particular at most
10 — all drawn from the prior history; the full prompt is the 4-message fixed
system/context block, the window and the question as the final user turn, so
its length is at most 14. -/
theorem chat_window_bounded (c : ChatDoc) (question : Text) (v : VideoContext) (now : Nat) :
    routeWindow (addMessage c question .user now).messages
      = (sliceLast 9 c.messages).map toPromptMessage ∧
    (routeWindow (addMessage c question .user now).messages).length ≤ 9 ∧
    buildChatMessages question v (routeWindow (addMessage c question .user now).messages)
      = chatFixedBlock v ++
        ((sliceLast 9 c.messages).map toPromptMessage).map
          (fun msg => ⟨if msg.role = .user then .user else .assistant, msg.content⟩) ++
        [⟨.user, question⟩] ∧
    (buildChatMessages question v
      (routeWindow (addMessage c question .user now).messages)).length ≤ 14 ∧
    (buildChatMessages question v
        (routeWindow (addMessage c question .user now).messages)).getLast?
      = some ⟨.user, question⟩ := by
  have hmsg : (addMessage c question .user now).messages
      = c.messages ++ [⟨question, .user, now⟩] := addMessage_messages c question .user now
  have hwin : routeWindow (addMessage c question .user now).messages
      = (sliceLast 9 c.messages).map toPromptMessage := by
    rw [hmsg, routeWindow_append]
  have hwinlen : (routeWindow (addMessage c question .user now).messages).length ≤ 9 := by
    rw [hwin, List.length_map]
    unfold sliceLast
    rw [List.length_drop]
    omega
  refine ⟨hwin, hwinlen, by rw [hwin, buildChatMessages], ?_, ?_⟩
  · rw [buildChatMessages]
    simp only [List.length_append, List.length_map, List.length_cons, List.length_nil]
    have h4 : (chatFixedBlock v).length = 4 := by rfl
    rw [h4]
    omega
  · rw [buildChatMessages]
    exact List.getLast?_concat _

/-- C7: POST /message appends the user question before the completion call, so
when the completion call fails the session afterwards ends with exactly the
question appended as its last message, the count of assistant messages is
unchanged, and the route returns the error — leaving the session safe to retry
the same question. -/
theorem chat_failure_durability (c : ChatDoc) (question e : Text) (now later : Nat) :
    (postChatMessage c question (.error e) now later).chat.messages
      = c.messages ++ [⟨question, .user, now⟩] ∧
    (postChatMessage c question (.error e) now later).chat.messages.getLast?
      = some ⟨question, .user, now⟩ ∧
    ((postChatMessage c question (.error e) now later).chat.messages.filter
        (fun m => m.role = .assistant)).length
      = (c.messages.filter (fun m => m.role = .assistant)).length ∧
    (postChatMessage c question (.error e) now later).reply
      = .error (strT "Failed to generate response: " ++ e) := by
  have hout : postChatMessage c question (.error e) now later
      = ⟨addMessage c question .user now,
          .error (strT "Failed to generate response: " ++ e)⟩ := by
    rw [postChatMessage, generateChatResponse]
  rw [hout]
  refine ⟨addMessage_messages c question .user now, ?_, ?_, rfl⟩
  · rw [addMessage_messages c question .user now]
    simp
  · rw [addMessage_messages c question .user now]
    simp [List.filter_append]

/-- The stored-counter invariant of a chat document: `totalMessages` equals the
number of stored messages, and `lastMessageAt` is the timestamp of the last
stored message. -/
def chatInvariant (d : ChatDoc) : Prop :=
  d.totalMessages = d.messages.length ∧
  ∃ m, d.messages.getLast? = some m ∧ d.lastMessageAt = m.timestamp

/-- Apply a sequence of `addMessage` operations (content, role, append time). -/
def applyMessages (c : ChatDoc) (ops : List (Text × MsgRole × Nat)) : ChatDoc :=
  ops.foldl (fun d op => addMessage d op.1 op.2.1 op.2.2) c

theorem addMessage_chatInvariant (d : ChatDoc) (content : Text) (role : MsgRole) (now : Nat) :
    chatInvariant (addMessage d content role now) := by
  refine ⟨?_, ⟨content, role, now⟩, ?_, ?_⟩
  · rw [addMessage_messages]
    simp [addMessage, preSave]
  · rw [addMessage_messages]
    simp
  · simp [addMessage, preSave]

/-- C10: after every save performed by a (non-empty) sequence of `addMessage`
operations, the chat invariant holds: `totalMessages` equals the length of the
message list and `lastMessageAt` equals the timestamp of the most recently
appended message. -/
theorem chat_counters_invariant (c : ChatDoc) (content : Text) (role : MsgRole) (now : Nat)
    (ops : List (Text × MsgRole × Nat)) :
    chatInvariant (applyMessages (addMessage c content role now) ops) := by
  induction ops generalizing c content role now with
  | nil => exact addMessage_chatInvariant c content role now
  | cons op rest ih =>
    rw [applyMessages, List.foldl_cons]
    exact ih (addMessage c content role now) op.1 op.2.1 op.2.2

/-! ## Tiered metadata fallback (youtubeService.js `getVideoInfo` lines 37–121,
`getAlternativeVideoInfo` lines 158–198) -/

/-- The `videoDetails` record consumed by `getVideoInfo` (thumbnails are kept
as their URLs; numeric strings are modelled as the parsed numbers). -/
structure VideoDetails where
  title : Text
  description : Text
  lengthSeconds : Nat
  thumbnails : List Text
  authorName : Text
  viewCount : Nat
  likes : Nat
deriving DecidableEq

/-- Outcome of the oEmbed fetch performed by `getAlternativeVideoInfo`: a
completed `response.ok` JSON body (fields absent or empty when falsy), a
completed non-ok response, or a thrown network error. -/
inductive FetchOutcome
  | ok (title : Option Text) (thumbnailUrl : Option Text) (authorName : Option Text)
  | notOk
  | threw (msg : Text)
deriving DecidableEq

/-- Whether the oEmbed fetch completed (with any status) rather than threw. -/
def FetchOutcome.completed : FetchOutcome → Bool
  | .ok _ _ _ => true
  | .notOk => true
  | .threw _ => false

/-- JS `x || d` for a possibly-missing, possibly-empty string. -/
def orDefault (o : Option Text) (d : Text) : Text :=
  match o with
  | some t => if t.isEmpty then d else t
  | none => d

/-- `https://img.youtube.com/vi/${videoId}/maxresdefault.jpg`: the thumbnail
URL derived deterministically from the contentId. -/
def deterministicThumb (videoId : Text) : Text :=
  strT "https://img.youtube.com/vi/" ++ videoId ++ strT "/maxresdefault.jpg"

/-- `getAlternativeVideoInfo` (youtubeService.js lines 158–198): build details
from the oEmbed body when `response.ok`, placeholder details when the response
completed non-ok — but `null` when the fetch itself threw (the `catch` at lines
194–197). -/
def getAlternativeVideoInfo (videoId : Text) (fetch : FetchOutcome) : Option VideoDetails :=
  match fetch with
  | .ok title thumb author =>
    some ⟨orDefault title (strT "Unknown Title"), [], 0,
      [orDefault thumb (deterministicThumb videoId)],
      orDefault author (strT "Unknown Channel"), 0, 0⟩
  | .notOk =>
    some ⟨strT "YouTube Video", [], 0, [deterministicThumb videoId],
      strT "Unknown Channel", 0, 0⟩
  | .threw _ => none

/-- Outcomes of the three metadata tiers tried by `getVideoInfo`: the
agent-based `ytdl.getInfo`, the basic `ytdl.getBasicInfo`, and the oEmbed
fetch of the tertiary tier. -/
structure InfoOracle where
  agentMethod : Except Text VideoDetails
  basicMethod : Except Text VideoDetails
  oembedFetch : FetchOutcome

/-- `getVideoInfo` (youtubeService.js lines 37–121): try the three tiers in
order, then assemble the `VideoInfo` with per-field fallbacks (placeholder
title/channel, last thumbnail or the deterministic URL).  The
`ownerChannelName` secondary channel fallback is not modelled. -/
def getVideoInfo (videoId url : Text) (o : InfoOracle) : Except Text VideoInfo :=
  let infoResult : Except Text VideoDetails :=
    match o.agentMethod with
    | .ok i => .ok i
    | .error _ =>
      match o.basicMethod with
      | .ok i => .ok i
      | .error _ =>
        match getAlternativeVideoInfo videoId o.oembedFetch with
        | some alt => .ok alt
        | none => .error (strT "All video info extraction methods failed")
  match infoResult with
  | .error e => .error (strT "Failed to get video information: " ++ e)
  | .ok d =>
    .ok ⟨videoId,
      (if d.title.isEmpty then strT "Unknown Title" else d.title),
      d.description, d.lengthSeconds,
      (match d.thumbnails.getLast? with
        | some u => if u.isEmpty then deterministicThumb videoId else u
        | none => deterministicThumb videoId),
      (if d.authorName.isEmpty then strT "Unknown Channel" else d.authorName),
      d.viewCount, d.likes, url⟩

theorem isEmpty_append_left (l₁ l₂ : Text) (h : l₁.isEmpty = false) :
    (l₁ ++ l₂).isEmpty = false := by
  cases l₁ with
  | nil => simp at h
  | cons c r => rfl

/-- C8 counterexample: when the first two tiers fail and the tertiary oEmbed
fetch itself throws (a network error), `getAlternativeVideoInfo` returns `null`
and the metadata fetch as a whole throws — refuting the claim that the tiering
never fails past the tertiary tier. -/
theorem getVideoInfo_can_throw :
    getAlternativeVideoInfo (strT "dQw4w9WgXcQ") (.threw (strT "network down")) = none ∧
    getVideoInfo (strT "dQw4w9WgXcQ") (strT "https://youtu.be/dQw4w9WgXcQ")
        ⟨.error (strT "agent failed"), .error (strT "basic failed"),
          .threw (strT "network down")⟩
      = .error (strT "Failed to get video information: All video info extraction methods failed") := by
  exact ⟨rfl, rfl⟩

/-- C8 (amended): PROVIDED the tertiary oEmbed fetch completes (ok or non-ok
response), the tertiary tier always returns usable metadata — on a non-ok
response the placeholder title "YouTube Video", channel "Unknown Channel" and
the thumbnail URL derived deterministically from the contentId — and
`getVideoInfo` as a whole succeeds whatever the first two tiers did; but when
the tertiary fetch itself throws, the metadata fetch throws. -/
theorem getVideoInfo_tertiary_fallback (videoId url : Text) (o : InfoOracle)
    (hf : o.oembedFetch.completed = true) :
    (∃ d, getAlternativeVideoInfo videoId o.oembedFetch = some d ∧ d.thumbnails ≠ []) ∧
    (o.oembedFetch = .notOk →
      getAlternativeVideoInfo videoId o.oembedFetch =
        some ⟨strT "YouTube Video", [], 0, [deterministicThumb videoId],
          strT "Unknown Channel", 0, 0⟩) ∧
    (∀ ea eb, o.agentMethod = .error ea → o.basicMethod = .error eb →
      o.oembedFetch = .notOk →
      getVideoInfo videoId url o =
        .ok ⟨videoId, strT "YouTube Video", [], 0, deterministicThumb videoId,
          strT "Unknown Channel", 0, 0, url⟩) ∧
    (∃ info, getVideoInfo videoId url o = .ok info) := by
  have hsome : ∃ d, getAlternativeVideoInfo videoId o.oembedFetch = some d ∧
      d.thumbnails ≠ [] := by
    cases hfe : o.oembedFetch with
    | ok t th a => exact ⟨_, rfl, by simp [getAlternativeVideoInfo]⟩
    | notOk => exact ⟨_, rfl, by simp [getAlternativeVideoInfo]⟩
    | threw m => rw [hfe] at hf; exact absurd hf (by simp [FetchOutcome.completed])
  refine ⟨hsome, ?_, ?_, ?_⟩
  · intro hno
    rw [hno]
    rfl
  · intro ea eb ha hb hno
    rw [getVideoInfo, ha, hb, hno]
    have hne : (deterministicThumb videoId).isEmpty = false := by
      rw [deterministicThumb]
      exact isEmpty_append_left _ _ (isEmpty_append_left _ _ (by decide))
    simp [getAlternativeVideoInfo, hne, strT]
  · obtain ⟨d, hd, -⟩ := hsome
    rw [getVideoInfo]
    cases o.agentMethod with
    | ok i => exact ⟨_, rfl⟩
    | error ea =>
      cases o.basicMethod with
      | ok i => exact ⟨_, rfl⟩
      | error eb =>
        rw [hd]
        exact ⟨_, rfl⟩

/-- A concrete metadata oracle: both rich tiers fail, the oEmbed fetch
completes with a non-ok response. -/
def c8Oracle : InfoOracle :=
  ⟨.error (strT "agent failed"), .error (strT "basic failed"), .notOk⟩

/-- Witness: `getVideoInfo_tertiary_fallback` at a concrete oracle whose first
two tiers fail and whose tertiary fetch completes non-ok. -/
theorem getVideoInfo_tertiary_fallback_witness :
    (∃ d, getAlternativeVideoInfo (strT "abc12345678") c8Oracle.oembedFetch = some d ∧
      d.thumbnails ≠ []) ∧
    (c8Oracle.oembedFetch = .notOk →
      getAlternativeVideoInfo (strT "abc12345678") c8Oracle.oembedFetch =
        some ⟨strT "YouTube Video", [], 0, [deterministicThumb (strT "abc12345678")],
          strT "Unknown Channel", 0, 0⟩) ∧
    (∀ ea eb, c8Oracle.agentMethod = .error ea → c8Oracle.basicMethod = .error eb →
      c8Oracle.oembedFetch = .notOk →
      getVideoInfo (strT "abc12345678") (strT "https://youtu.be/abc12345678") c8Oracle =
        .ok ⟨strT "abc12345678", strT "YouTube Video", [], 0,
          deterministicThumb (strT "abc12345678"), strT "Unknown Channel", 0, 0,
          strT "https://youtu.be/abc12345678"⟩) ∧
    (∃ info, getVideoInfo (strT "abc12345678") (strT "https://youtu.be/abc12345678")
      c8Oracle = .ok info) :=
  getVideoInfo_tertiary_fallback (strT "abc12345678") (strT "https://youtu.be/abc12345678")
    c8Oracle rfl

/-! ## Completion-service error taxonomy and timeout
(aiService.js `makeRequest` lines 17–64) -/

/-- The provider failure signal attached to a thrown axios error: the optional
HTTP status of `error.response`, the optional `error.code`, and the raw
`error.message`. -/
structure ApiError where
  status : Option Nat
  code : Option Text
  message : Text

/-- The error-mapping chain of `makeRequest` (aiService.js lines 52–62):
HTTP 429, 401, 402, then the axios timeout code `ECONNABORTED`, then the
generic wrapper. -/
def mapApiError (e : ApiError) : Text :=
  if e.status = some 429 then strT "Rate limit exceeded. Please try again later."
  else if e.status = some 401 then
    strT "Invalid API key. Please check your OpenRouter API configuration."
  else if e.status = some 402 then
    strT "Insufficient credits. Please check your OpenRouter account balance."
  else if e.code = some (strT "ECONNABORTED") then
    strT "Request timeout. The AI service took too long to respond."
  else strT "AI service error: " ++ e.message

/-- The axios request options of `makeRequest` (line 44: `timeout: 60000`),
applied to every completion call. -/
structure RequestConfig where
  timeoutMs : Nat
deriving DecidableEq

/-- The request configuration used by every completion call. -/
def makeRequestConfig : RequestConfig := ⟨60000⟩

theorem generic_ne_fixed (m fixedMsg : Text)
    (h : fixedMsg.take 18 ≠ strT "AI service error: ") :
    strT "AI service error: " ++ m ≠ fixedMsg := by
  intro he
  apply h
  rw [← he]
  have hlen : (strT "AI service error: ").length = 18 := by decide
  exact List.take_left' hlen

/-- C9: the four provider failure signals — HTTP 429 (rate limited), 401
(unauthorized), 402 (insufficient quota) and the axios timeout code — map to
four fixed human-readable messages, pairwise distinct and distinct from every
generic failure message; and every completion call carries the bounded
60-second timeout. -/
theorem api_error_taxonomy (m : Text) :
    mapApiError ⟨some 429, none, m⟩ = strT "Rate limit exceeded. Please try again later." ∧
    mapApiError ⟨some 401, none, m⟩ =
      strT "Invalid API key. Please check your OpenRouter API configuration." ∧
    mapApiError ⟨some 402, none, m⟩ =
      strT "Insufficient credits. Please check your OpenRouter account balance." ∧
    mapApiError ⟨none, some (strT "ECONNABORTED"), m⟩ =
      strT "Request timeout. The AI service took too long to respond." ∧
    mapApiError ⟨none, none, m⟩ = strT "AI service error: " ++ m ∧
    mapApiError ⟨some 429, none, m⟩ ≠ mapApiError ⟨some 401, none, m⟩ ∧
    mapApiError ⟨some 429, none, m⟩ ≠ mapApiError ⟨some 402, none, m⟩ ∧
    mapApiError ⟨some 429, none, m⟩ ≠ mapApiError ⟨none, some (strT "ECONNABORTED"), m⟩ ∧
    mapApiError ⟨some 401, none, m⟩ ≠ mapApiError ⟨some 402, none, m⟩ ∧
    mapApiError ⟨some 401, none, m⟩ ≠ mapApiError ⟨none, some (strT "ECONNABORTED"), m⟩ ∧
    mapApiError ⟨some 402, none, m⟩ ≠ mapApiError ⟨none, some (strT "ECONNABORTED"), m⟩ ∧
    mapApiError ⟨none, none, m⟩ ≠ mapApiError ⟨some 429, none, m⟩ ∧
    mapApiError ⟨none, none, m⟩ ≠ mapApiError ⟨some 401, none, m⟩ ∧
    mapApiError ⟨none, none, m⟩ ≠ mapApiError ⟨some 402, none, m⟩ ∧
    mapApiError ⟨none, none, m⟩ ≠ mapApiError ⟨none, some (strT "ECONNABORTED"), m⟩ ∧
    0 < makeRequestConfig.timeoutMs ∧ makeRequestConfig.timeoutMs = 60000 := by
  have h429 : mapApiError ⟨some 429, none, m⟩ =
      strT "Rate limit exceeded. Please try again later." := rfl
  have h401 : mapApiError ⟨some 401, none, m⟩ =
      strT "Invalid API key. Please check your OpenRouter API configuration." := rfl
  have h402 : mapApiError ⟨some 402, none, m⟩ =
      strT "Insufficient credits. Please check your OpenRouter account balance." := rfl
  have hto : mapApiError ⟨none, some (strT "ECONNABORTED"), m⟩ =
      strT "Request timeout. The AI service took too long to respond." := rfl
  have hgen : mapApiError ⟨none, none, m⟩ = strT "AI service error: " ++ m := rfl
  refine ⟨h429, h401, h402, hto, hgen, ?_, ?_, ?_, ?_, ?_, ?_, ?_, ?_, ?_, ?_, by decide, rfl⟩
  · rw [h429, h401]; decide
  · rw [h429, h402]; decide
  · rw [h429, hto]; decide
  · rw [h401, h402]; decide
  · rw [h401, hto]; decide
  · rw [h402, hto]; decide
  · rw [hgen, h429]; exact generic_ne_fixed m _ (by decide)
  · rw [hgen, h401]; exact generic_ne_fixed m _ (by decide)
  · rw [hgen, h402]; exact generic_ne_fixed m _ (by decide)
  · rw [hgen, hto]; exact generic_ne_fixed m _ (by decide)

end VidEssence
